import Mathlib

/-!
Verification development for the Calcu-App repository (`src/app.py`).

The file shallowly embeds the core of the application: the Calculate
handler (dispatch over category/operation with domain validation), the
numeric helpers `format_number`, `to_radians`, `from_radians`, the session
history ledger (`add_history`, the clear-history handler) and the
copy-last-result handler.  Python floats are idealized as real numbers;
Python `int` values keep their own constructor because the code branches
on `isinstance(x, int)`.  A `raise` (or an exception raised inside a
library call) that is caught by the handler's `except` block is modelled
with `Except String`.
-/

open Real

/-- A Python number as the app handles it: an `int` or a `float`
(float values idealized as real numbers). -/
inductive PyNum where
  | int (n : ℤ)
  | float (r : ℝ)

/-- The numeric value of a Python number; Python comparisons and mixed
arithmetic work on this value. -/
def PyNum.toReal : PyNum → ℝ
  | .int n => n
  | .float r => r

/-- Python `+` on numbers: `int + int` is an `int`, otherwise a `float`. -/
def PyNum.add : PyNum → PyNum → PyNum
  | .int a, .int b => .int (a + b)
  | a, b => .float (a.toReal + b.toReal)

/-- Python `-` on numbers. -/
def PyNum.sub : PyNum → PyNum → PyNum
  | .int a, .int b => .int (a - b)
  | a, b => .float (a.toReal - b.toReal)

/-- Python `*` on numbers. -/
def PyNum.mul : PyNum → PyNum → PyNum
  | .int a, .int b => .int (a * b)
  | a, b => .float (a.toReal * b.toReal)

/-- Python `/` (true division) always returns a `float`. -/
noncomputable def PyNum.div (a b : PyNum) : PyNum :=
  .float (a.toReal / b.toReal)

/-- Python `abs` keeps the numeric type. -/
def PyNum.abs : PyNum → PyNum
  | .int n => .int |n|
  | .float r => .float |r|

/-- `to_radians` (src/app.py lines 29-30): `math.radians(x)` when the angle
mode is `"Degrees"`, the identity otherwise; `math.radians` multiplies by
pi / 180. -/
noncomputable def to_radians (x : ℝ) (angle_mode : String) : ℝ :=
  if angle_mode = "Degrees" then x * (Real.pi / 180) else x

/-- `from_radians` (src/app.py lines 32-33): `math.degrees(x)` when the angle
mode is `"Degrees"`, the identity otherwise; `math.degrees` multiplies by
180 / pi. -/
noncomputable def from_radians (x : ℝ) (angle_mode : String) : ℝ :=
  if angle_mode = "Degrees" then x * (180 / Real.pi) else x

open scoped Classical

/-- CPython `math.pow` on finite arguments: raises
`ValueError("math domain error")` when the base is negative and the
exponent is not an integer, or when the base is zero and the exponent is
negative; otherwise it returns the real power. -/
noncomputable def math_pow (x y : ℝ) : Except String ℝ :=
  if x < 0 ∧ ¬∃ n : ℤ, y = (n : ℝ) then .error "math domain error"
  else if x = 0 ∧ y < 0 then .error "math domain error"
  else .ok (Real.rpow x y)

/-- Python `==` of a possibly-missing operand against a numeric constant:
`None == c` is `False` (no exception), numbers compare by value. -/
def pyEq (a : Option PyNum) (c : ℝ) : Prop :=
  match a with
  | some v => v.toReal = c
  | none => False

/-- Apply a binary numeric operation; a missing (`None`) operand makes the
Python operator raise `TypeError`, which the handler's `except` catches. -/
def binOp (f : PyNum → PyNum → PyNum) :
    Option PyNum → Option PyNum → Except String (Option PyNum)
  | some a, some b => .ok (some (f a b))
  | _, _ => .error "TypeError"

/-- Apply a unary numeric operation; a missing (`None`) operand raises
`TypeError`. -/
def unOp (f : PyNum → PyNum) : Option PyNum → Except String (Option PyNum)
  | some a => .ok (some (f a))
  | none => .error "TypeError"

/-- The body of the `try:` block of the Calculate handler
(src/app.py lines 148-211).  An assignment to `result` becomes `.ok (some _)`,
a `raise` (or an exception from a library call or from touching a `None`
operand) becomes `.error` with the message `str(e)`, and falling through
every branch leaves `result = None`, i.e. `.ok none`. -/
noncomputable def compute (group op : String) (x y base : Option PyNum)
    (angle_mode : String) : Except String (Option PyNum) :=
  if group = "Basic" then
    if op = "Add" then binOp PyNum.add x y
    else if op = "Subtract" then binOp PyNum.sub x y
    else if op = "Multiply" then binOp PyNum.mul x y
    else if op = "Divide" then
      if pyEq y 0 then .error "Division by zero is undefined."
      else binOp PyNum.div x y
    else .ok none
  else if group = "Advanced" then
    if op = "Power (x^y)" then
      match x, y with
      | some a, some b =>
        match math_pow a.toReal b.toReal with
        | .ok r => .ok (some (.float r))
        | .error e => .error e
      | _, _ => .error "TypeError"
    else if op = "Square Root" then
      match x with
      | some a =>
        if a.toReal < 0 then .error "Square root domain error: x must be ≥ 0."
        else .ok (some (.float (Real.sqrt a.toReal)))
      | none => .error "TypeError"
    else if op = "Exponential (e^x)" then
      unOp (fun a => .float (Real.exp a.toReal)) x
    else if op = "Natural Log (ln)" then
      match x with
      | some a =>
        if a.toReal ≤ 0 then .error "Log domain error: x must be > 0."
        else .ok (some (.float (Real.log a.toReal)))
      | none => .error "TypeError"
    else if op = "Log Base 10" then
      match x with
      | some a =>
        if a.toReal ≤ 0 then .error "Log domain error: x must be > 0."
        else .ok (some (.float (Real.log a.toReal / Real.log 10)))
      | none => .error "TypeError"
    else if op = "Log (Custom Base)" then
      match x with
      | some a =>
        if a.toReal ≤ 0 then .error "For log_b(x): x>0, b>0, b≠1."
        else
          match base with
          | none => .error "For log_b(x): x>0, b>0, b≠1."
          | some b =>
            if b.toReal ≤ 0 ∨ b.toReal = 1 then .error "For log_b(x): x>0, b>0, b≠1."
            else .ok (some (.float (Real.log a.toReal / Real.log b.toReal)))
      | none => .error "TypeError"
    else .ok none
  else if group = "Trigonometry" then
    match x with
    | some a =>
      if op = "sin" then .ok (some (.float (Real.sin (to_radians a.toReal angle_mode))))
      else if op = "cos" then .ok (some (.float (Real.cos (to_radians a.toReal angle_mode))))
      else if op = "tan" then .ok (some (.float (Real.tan (to_radians a.toReal angle_mode))))
      else .ok none
    | none =>
      if angle_mode = "Degrees" then .error "TypeError"
      else if op = "sin" ∨ op = "cos" ∨ op = "tan" then .error "TypeError"
      else .ok none
  else if group = "Inverse Trig" then
    if op = "arcsin" ∨ op = "arccos" then
      match x with
      | some a =>
        if ¬(-1 ≤ a.toReal ∧ a.toReal ≤ 1) then
          .error "Domain error: input must be in [-1, 1]."
        else if op = "arcsin" then
          .ok (some (.float (from_radians (Real.arcsin a.toReal) angle_mode)))
        else
          .ok (some (.float (from_radians (Real.arccos a.toReal) angle_mode)))
      | none => .error "TypeError"
    else if op = "arctan" then
      match x with
      | some a => .ok (some (.float (from_radians (Real.arctan a.toReal) angle_mode)))
      | none => .error "TypeError"
    else .ok none
  else if group = "Misc" then
    if op = "Absolute" then unOp PyNum.abs x
    else if op = "Factorial" then
      match x with
      | some (.int n) =>
        if 0 ≤ n then .ok (some (.int (Nat.factorial n.toNat)))
        else .error "Factorial requires a non-negative integer."
      | _ => .error "Factorial requires a non-negative integer."
    else if op = "Percentage (x of y)" then
      match x, y with
      | some a, some b => .ok (some (.float (a.toReal / 100 * b.toReal)))
      | _, _ => .error "TypeError"
    else .ok none
  else .ok none

/-- The pair of local variables of the Calculate handler after the
`try`/`except` (src/app.py lines 146-147, 220-221): exactly one of the two is
set on the paths the claims describe. -/
structure Attempt where
  result : Option PyNum
  error : Option String

/-- The Calculate handler outcome: a caught exception leaves
`result = None` and stores `str(e)` in `error`. -/
noncomputable def calculate (group op : String) (x y base : Option PyNum)
    (angle_mode : String) : Attempt :=
  match compute group op x y base angle_mode with
  | .ok r => ⟨r, none⟩
  | .error e => ⟨none, some e⟩

/-- The `ops` dictionary of the app (src/app.py lines 92-98): the fixed
dispatch table of (category, operation) pairs. -/
def ops : List (String × List String) :=
  [("Basic", ["Add", "Subtract", "Multiply", "Divide"]),
   ("Advanced", ["Power (x^y)", "Square Root", "Exponential (e^x)",
                 "Natural Log (ln)", "Log Base 10", "Log (Custom Base)"]),
   ("Trigonometry", ["sin", "cos", "tan"]),
   ("Inverse Trig", ["arcsin", "arccos", "arctan"]),
   ("Misc", ["Absolute", "Factorial", "Percentage (x of y)"])]

/-- A (category, operation) pair is in the fixed dispatch table. -/
def inTable (group op : String) : Prop :=
  ∃ p ∈ ops, p.1 = group ∧ op ∈ p.2

/-- Zero-pad a digit list on the left to the given length (the zero fill of
fixed-point rendering below the decimal point). -/
def padLeft (s : List Char) (len : ℕ) : List Char :=
  List.replicate (len - s.length) '0' ++ s

/-- Render a scaled non-negative magnitude `m` (the rounded value times
`10 ^ p`) as a fixed-point numeral with `p` digits after the decimal point;
with `p = 0` no decimal point is printed. -/
def renderScaled (m : ℕ) (p : ℕ) : String :=
  let digits := padLeft (Nat.repr m).data (p + 1)
  if p = 0 then ⟨digits⟩
  else ⟨digits.take (digits.length - p)⟩ ++ "." ++ ⟨digits.drop (digits.length - p)⟩

/-- Round to the nearest integer, ties to even (the rounding used by Python
float formatting, idealized to exact values). -/
noncomputable def roundHalfEven (x : ℝ) : ℤ :=
  if x - ⌊x⌋ < 1 / 2 then ⌊x⌋
  else if 1 / 2 < x - ⌊x⌋ then ⌊x⌋ + 1
  else if Even ⌊x⌋ then ⌊x⌋ else ⌊x⌋ + 1

/-- Python `f"{x:.{p}f}"` on a float, idealized: fixed-point with `p` digits
after the decimal point, round half to even, a leading sign for negative
values. -/
noncomputable def formatFixed (x : ℝ) (p : ℕ) : String :=
  (if x < 0 then "-" else "") ++ renderScaled (roundHalfEven (x * 10 ^ p)).natAbs p

/-- `format_number` (src/app.py lines 21-27): an `int` renders as `str(x)`;
otherwise the float format `f"{x:.{precision}f}"` is tried, and when that
formatting raises (a non-numeric `x`, such as `None`) the generic `str(x)`
conversion is returned instead of the exception propagating. -/
noncomputable def format_number (x : Option PyNum) (precision : ℕ) : String :=
  match x with
  | some (.int n) => toString n
  | some (.float r) => formatFixed r precision
  | none => "None"

/-- The operand record stored with each history entry
(src/app.py lines 215 and 224). -/
structure Inputs where
  x : Option PyNum
  y : Option PyNum
  base : Option PyNum
  angle_mode : String

/-- One element of `st.session_state.history` (src/app.py lines 36-42). -/
structure HistoryEntry where
  time : String
  operation : String
  inputs : Inputs
  result : Option PyNum
  error : Option String

/-- `add_history` (src/app.py lines 35-42): appends one entry to the session
history; the wall-clock timestamp is passed explicitly. -/
def add_history (history : List HistoryEntry) (time op : String)
    (inputs : Inputs) (result : Option PyNum) (error : Option String) :
    List HistoryEntry :=
  history ++ [⟨time, op, inputs, result, error⟩]

/-- The clear-history button handler sets `st.session_state.history = []`
(src/app.py lines 56-57). -/
def clear_history (_history : List HistoryEntry) : List HistoryEntry := []

/-- One session event touching the history: a press of Calculate (with the
wall-clock timestamp and all widget values), or of the clear button. -/
inductive SessionEvent where
  | press (time group op : String) (x y base : Option PyNum) (angle_mode : String)
  | clear

/-- Whether an event is a Calculate attempt. -/
def SessionEvent.isCalc : SessionEvent → Bool
  | .press .. => true
  | .clear => false

/-- The history entry a Calculate attempt appends (src/app.py lines 213-217
on success, 222-226 on a caught exception): label `f"{group} → {op}"`, the
operand snapshot, and the result/error pair.  (The `.clear` case is a dummy,
never used: only Calculate events append entries.) -/
noncomputable def entryOf : SessionEvent → HistoryEntry
  | .press t g o x y b am =>
    let a := calculate g o x y b am
    ⟨t, g ++ " → " ++ o, ⟨x, y, b, am⟩, a.result, a.error⟩
  | .clear => ⟨"", "", ⟨none, none, none, ""⟩, none, none⟩

/-- The effect of one session event on the history state: a Calculate
attempt appends exactly one entry through `add_history` on both the success
path and the except path; the clear button empties the list. -/
noncomputable def step (h : List HistoryEntry) : SessionEvent → List HistoryEntry
  | .press t g o x y b am =>
    let a := calculate g o x y b am
    add_history h t (g ++ " → " ++ o) ⟨x, y, b, am⟩ a.result a.error
  | .clear => clear_history h

/-- The copy-last-result button handler outcome: either a value exposed with
`st.code(str(...))`, or an informational message and nothing exposed. -/
inductive CopyOutcome where
  | copied (v : PyNum)
  | info (msg : String)

/-- The copy-last-result button handler (src/app.py lines 59-67): with a
non-empty history it inspects `history[-1]` and exposes its result only when
`error is None and result is not None`. -/
def copy_last_result (h : List HistoryEntry) : CopyOutcome :=
  match h.getLast? with
  | none => .info "No history yet."
  | some last =>
    match last.error, last.result with
    | none, some v => .copied v
    | _, _ => .info "Last entry has no result to copy."


/-! ## Helper lemmas -/

lemma digitChar_ne_dot {n : ℕ} (h : n < 10) : Nat.digitChar n ≠ '.' := by
  interval_cases n <;> decide

lemma toDigitsCore_ne_dot :
    ∀ (fuel n : ℕ) (acc : List Char), (∀ c ∈ acc, c ≠ '.') →
      ∀ c ∈ Nat.toDigitsCore 10 fuel n acc, c ≠ '.' := by
  intro fuel
  induction fuel with
  | zero => intro n acc hacc c hc; exact hacc c hc
  | succ fuel ih =>
    intro n acc hacc c hc
    simp only [Nat.toDigitsCore] at hc
    have hd : Nat.digitChar (n % 10) ≠ '.' :=
      digitChar_ne_dot (Nat.mod_lt _ (by norm_num))
    by_cases hq : n / 10 = 0
    · rw [if_pos hq] at hc
      rcases List.mem_cons.mp hc with rfl | h
      · exact hd
      · exact hacc c h
    · rw [if_neg hq] at hc
      refine ih _ _ ?_ c hc
      intro d hdm
      rcases List.mem_cons.mp hdm with rfl | h
      · exact hd
      · exact hacc d h

lemma natRepr_ne_dot (n : ℕ) : ∀ c ∈ (Nat.repr n).data, c ≠ '.' := by
  intro c hc
  have hm : c ∈ Nat.toDigitsCore 10 (n + 1) n [] := by
    simpa [Nat.repr, Nat.toDigits, List.asString] using hc
  exact toDigitsCore_ne_dot _ _ _ (by intro d hd; cases hd) c hm

lemma string_data_append (s t : String) : (s ++ t).data = s.data ++ t.data := rfl

lemma intStr_ne_dot (n : ℤ) : ∀ c ∈ (toString n).data, c ≠ '.' := by
  cases n with
  | ofNat m => exact natRepr_ne_dot m
  | negSucc m =>
    intro c hc
    have hm : c ∈ ("-" : String).data ++ (Nat.repr (m + 1)).data := hc
    rcases List.mem_append.mp hm with h | h
    · rcases List.mem_singleton.mp h with rfl; decide
    · exact natRepr_ne_dot _ c h

lemma padLeft_length (s : List Char) (len : ℕ) : len ≤ (padLeft s len).length := by
  simp [padLeft]
  omega

lemma padLeft_ne_dot (s : List Char) (len : ℕ) (hs : ∀ c ∈ s, c ≠ '.') :
    ∀ c ∈ padLeft s len, c ≠ '.' := by
  intro c hc
  rcases List.mem_append.mp hc with h | h
  · rw [List.eq_of_mem_replicate h]; decide
  · exact hs c h

lemma renderScaled_data (m p : ℕ) (hp : p ≠ 0) :
    ∃ pre post : List Char,
      (renderScaled m p).data = pre ++ '.' :: post ∧ post.length = p ∧
      (∀ c ∈ pre, c ≠ '.') ∧ (∀ c ∈ post, c ≠ '.') := by
  unfold renderScaled
  have hlen : p + 1 ≤ (padLeft (Nat.repr m).data (p + 1)).length := padLeft_length _ _
  have hdots : ∀ c ∈ padLeft (Nat.repr m).data (p + 1), c ≠ '.' :=
    padLeft_ne_dot _ _ (natRepr_ne_dot m)
  rw [if_neg hp]
  set digits := padLeft (Nat.repr m).data (p + 1) with hd
  refine ⟨digits.take (digits.length - p), digits.drop (digits.length - p), ?_, ?_, ?_, ?_⟩
  · simp [string_data_append]
  · rw [List.length_drop]
    omega
  · intro c hc; exact hdots c (List.take_subset _ _ hc)
  · intro c hc; exact hdots c (List.drop_subset _ _ hc)

lemma renderScaled_data_zero (m : ℕ) :
    ∀ c ∈ (renderScaled m 0).data, c ≠ '.' := by
  intro c hc
  unfold renderScaled at hc
  rw [if_pos rfl] at hc
  exact padLeft_ne_dot _ _ (natRepr_ne_dot m) c hc

lemma foldl_step_calc :
    ∀ (evs : List SessionEvent) (h : List HistoryEntry),
      (∀ e ∈ evs, e.isCalc = true) →
      evs.foldl step h = h ++ evs.map entryOf := by
  intro evs
  induction evs with
  | nil => intro h _; simp
  | cons e t ih =>
    intro h hall
    have he := hall e (by simp)
    cases e with
    | press ti g o x y b am =>
      simp only [List.foldl_cons, List.map_cons]
      rw [ih _ (fun d hd => hall d (by simp [hd]))]
      simp [step, add_history, entryOf]
    | clear => simp [SessionEvent.isCalc] at he

/-! ## Claim theorems -/

/-- Claim C1: for all finite real operands, Basic Divide returns Success of
the quotient when the divisor is nonzero, and when the divisor is zero it
returns Failure with exactly the message "Division by zero is undefined.";
in particular x = 5, y = 0 produces that Failure. -/
theorem divide_spec (x y : ℝ) (am : String) :
    (y ≠ 0 →
      calculate "Basic" "Divide" (some (.float x)) (some (.float y)) none am
        = ⟨some (.float (x / y)), none⟩) ∧
    (calculate "Basic" "Divide" (some (.float x)) (some (.float 0)) none am
        = ⟨none, some "Division by zero is undefined."⟩) ∧
    (calculate "Basic" "Divide" (some (.float 5)) (some (.float 0)) none am
        = ⟨none, some "Division by zero is undefined."⟩) := by
  refine ⟨fun hy => ?_, ?_, ?_⟩
  · simp [calculate, compute, pyEq, PyNum.toReal, hy, binOp, PyNum.div]
  · simp [calculate, compute, pyEq, PyNum.toReal]
  · simp [calculate, compute, pyEq, PyNum.toReal]

/-- Witness for C1 at x = 1, y = 2. -/
theorem divide_spec_witness :
    calculate "Basic" "Divide" (some (.float 1)) (some (.float 2)) none "Degrees"
      = ⟨some (.float (1 / 2)), none⟩ :=
  (divide_spec 1 2 "Degrees").1 (by norm_num)

/-- Counterexample to claim C2 as stated: the operand 3.0 supplied as a
Python float is representable as the non-negative integer 3, yet the
Factorial branch rejects it, because the code tests `isinstance(x, int)` —
the runtime type — not representability. -/
theorem factorial_claim_counterexample :
    calculate "Misc" "Factorial" (some (.float 3)) none none "Degrees"
      = ⟨none, some "Factorial requires a non-negative integer."⟩ ∧
    (3 : ℝ) = ((3 : ℤ) : ℝ) ∧ (0 : ℤ) ≤ 3 := by
  refine ⟨?_, by norm_num, by norm_num⟩
  simp [calculate, compute]

/-- Claim C2 (amended): Factorial returns Success(x!) — an exact integer —
exactly when x is supplied as a Python int with x ≥ 0; a negative int and
any float-typed operand (even one with an integral value, such as 3.0)
yield Failure with exactly the message
"Factorial requires a non-negative integer.".  Concretely x = 5 yields
Success(120), and x = -1 and x = 3.5 yield that Failure. -/
theorem factorial_spec (am : String) :
    (∀ n : ℤ, 0 ≤ n →
      calculate "Misc" "Factorial" (some (.int n)) none none am
        = ⟨some (.int (Nat.factorial n.toNat)), none⟩) ∧
    (∀ n : ℤ, n < 0 →
      calculate "Misc" "Factorial" (some (.int n)) none none am
        = ⟨none, some "Factorial requires a non-negative integer."⟩) ∧
    (∀ r : ℝ,
      calculate "Misc" "Factorial" (some (.float r)) none none am
        = ⟨none, some "Factorial requires a non-negative integer."⟩) ∧
    (calculate "Misc" "Factorial" (some (.int 5)) none none am
        = ⟨some (.int 120), none⟩) ∧
    (calculate "Misc" "Factorial" (some (.int (-1))) none none am
        = ⟨none, some "Factorial requires a non-negative integer."⟩) ∧
    (calculate "Misc" "Factorial" (some (.float (7 / 2))) none none am
        = ⟨none, some "Factorial requires a non-negative integer."⟩) := by
  refine ⟨fun n hn => ?_, fun n hn => ?_, fun r => ?_, ?_, ?_, ?_⟩
  · simp [calculate, compute, hn]
  · simp [calculate, compute, not_le.mpr hn]
  · simp [calculate, compute]
  · simp [calculate, compute]
    decide
  · have hneg : ¬(0 : ℤ) ≤ -1 := by norm_num
    simp [calculate, compute, hneg]
  · simp [calculate, compute]

/-- Witness for C2 at n = 2. -/
theorem factorial_spec_witness :
    calculate "Misc" "Factorial" (some (.int 2)) none none "Degrees"
      = ⟨some (.int (Nat.factorial (Int.toNat 2))), none⟩ :=
  (factorial_spec "Degrees").1 2 (by norm_num)

/-- Claim C3: for all finite real operands, Advanced Log (Custom Base)
returns Success(log_base(x)) exactly when x > 0, base > 0 and base ≠ 1, and
otherwise Failure with exactly the message "For log_b(x): x>0, b>0, b≠1.";
concretely x = 8, base = 2 yields Success(3) and x = 8, base = 1 yields that
Failure. -/
theorem log_custom_base_spec (x b : ℝ) (am : String) :
    (0 < x → 0 < b → b ≠ 1 →
      calculate "Advanced" "Log (Custom Base)"
          (some (.float x)) none (some (.float b)) am
        = ⟨some (.float (Real.logb b x)), none⟩) ∧
    (¬(0 < x ∧ 0 < b ∧ b ≠ 1) →
      calculate "Advanced" "Log (Custom Base)"
          (some (.float x)) none (some (.float b)) am
        = ⟨none, some "For log_b(x): x>0, b>0, b≠1."⟩) ∧
    (calculate "Advanced" "Log (Custom Base)"
          (some (.float 8)) none (some (.float 2)) am
        = ⟨some (.float 3), none⟩) ∧
    (calculate "Advanced" "Log (Custom Base)"
          (some (.float 8)) none (some (.float 1)) am
        = ⟨none, some "For log_b(x): x>0, b>0, b≠1."⟩) := by
  have hlog : Real.log 8 / Real.log 2 = 3 := by
    have h8 : (8 : ℝ) = 2 ^ (3 : ℕ) := by norm_num
    have h2 : Real.log 2 ≠ 0 := ne_of_gt (Real.log_pos one_lt_two)
    rw [h8, Real.log_pow]
    push_cast
    rw [mul_div_assoc, div_self h2, mul_one]
  refine ⟨fun hx hb hb1 => ?_, fun h => ?_, ?_, ?_⟩
  · simp [calculate, compute, PyNum.toReal, not_le.mpr hx, not_le.mpr hb, hb1, Real.logb]
  · by_cases hx : x ≤ 0
    · simp [calculate, compute, PyNum.toReal, hx]
    · push_neg at h hx
      have hcond : b ≤ 0 ∨ b = 1 := by
        by_cases hb : b ≤ 0
        · exact Or.inl hb
        · exact Or.inr (h hx (lt_of_not_le hb))
      simp [calculate, compute, PyNum.toReal, not_le.mpr hx, hcond]
  · have h8 : ¬(8 : ℝ) ≤ 0 := by norm_num
    have h2 : ¬(2 : ℝ) ≤ 0 := by norm_num
    have h21 : (2 : ℝ) ≠ 1 := by norm_num
    simp [calculate, compute, PyNum.toReal, h8, h2, h21, hlog]
  · have h8 : ¬(8 : ℝ) ≤ 0 := by norm_num
    have h1 : (1 : ℝ) ≤ 0 ∨ (1 : ℝ) = 1 := Or.inr rfl
    simp [calculate, compute, PyNum.toReal, h8, h1]

/-- Witness for C3 at x = 8, base = 2. -/
theorem log_custom_base_spec_witness :
    calculate "Advanced" "Log (Custom Base)"
        (some (.float 8)) none (some (.float 2)) "Degrees"
      = ⟨some (.float (Real.logb 2 8)), none⟩ :=
  (log_custom_base_spec 8 2 "Degrees").1 (by norm_num) (by norm_num) (by norm_num)

/-- Counterexample to claim C4 as stated: ("Basic", "Cube") is not in the
dispatch table, yet the handler does not return a Failure: it falls through
every branch with `result = None` and `error = None` and takes the success
path (`st.success` with the formatted `None`). -/
theorem unknown_op_claim_counterexample :
    ¬inTable "Basic" "Cube" ∧
    calculate "Basic" "Cube" (some (.float 1)) (some (.float 1)) none "Degrees"
      = ⟨none, none⟩ :=
  ⟨by simp [inTable, ops], by simp [calculate, compute]⟩

/-- Claim C4 (amended): a (category, operation) pair outside the fixed
dispatch table is not rejected with a Failure: with the operand x supplied,
the handler falls through every branch leaving result = None and
error = None, which is recorded and rendered through the success path; it
does not crash, and the caller still observes only the result/error record. -/
theorem unknown_op_spec (group op : String) (a : PyNum) (y base : Option PyNum)
    (am : String) (h : ¬inTable group op) :
    calculate group op (some a) y base am = ⟨none, none⟩ := by
  have hmem : ∀ l : List String, (group, l) ∈ ops → op ∉ l := by
    intro l hl hop
    exact h ⟨(group, l), hl, rfl, hop⟩
  by_cases hg1 : group = "Basic"
  · subst hg1
    have hops := hmem ["Add", "Subtract", "Multiply", "Divide"] (by simp [ops])
    simp only [List.mem_cons, List.not_mem_nil, or_false, not_or] at hops
    obtain ⟨h1, h2, h3, h4⟩ := hops
    simp [calculate, compute, h1, h2, h3, h4]
  · by_cases hg2 : group = "Advanced"
    · subst hg2
      have hops := hmem ["Power (x^y)", "Square Root", "Exponential (e^x)",
          "Natural Log (ln)", "Log Base 10", "Log (Custom Base)"] (by simp [ops])
      simp only [List.mem_cons, List.not_mem_nil, or_false, not_or] at hops
      obtain ⟨h1, h2, h3, h4, h5, h6⟩ := hops
      simp [calculate, compute, hg1, h1, h2, h3, h4, h5, h6]
    · by_cases hg3 : group = "Trigonometry"
      · subst hg3
        have hops := hmem ["sin", "cos", "tan"] (by simp [ops])
        simp only [List.mem_cons, List.not_mem_nil, or_false, not_or] at hops
        obtain ⟨h1, h2, h3⟩ := hops
        simp [calculate, compute, hg1, hg2, h1, h2, h3]
      · by_cases hg4 : group = "Inverse Trig"
        · subst hg4
          have hops := hmem ["arcsin", "arccos", "arctan"] (by simp [ops])
          simp only [List.mem_cons, List.not_mem_nil, or_false, not_or] at hops
          obtain ⟨h1, h2, h3⟩ := hops
          simp [calculate, compute, hg1, hg2, hg3, h1, h2, h3]
        · by_cases hg5 : group = "Misc"
          · subst hg5
            have hops := hmem ["Absolute", "Factorial", "Percentage (x of y)"] (by simp [ops])
            simp only [List.mem_cons, List.not_mem_nil, or_false, not_or] at hops
            obtain ⟨h1, h2, h3⟩ := hops
            simp [calculate, compute, hg1, hg2, hg3, hg4, h1, h2, h3]
          · simp [calculate, compute, hg1, hg2, hg3, hg4, hg5]

/-- Witness for C4 at the unknown pair ("Bogus", "Nope"). -/
theorem unknown_op_spec_witness :
    calculate "Bogus" "Nope" (some (.float 0)) none none "Radians" = ⟨none, none⟩ :=
  unknown_op_spec "Bogus" "Nope" (.float 0) none none "Radians" (by simp [inTable, ops])

/-- Claim C5: every Calculate attempt appends exactly one history entry, so
after N attempts (any mix of successes and failures) from an empty ledger
the history has length exactly N in attempt order; clear resets it to the
empty list and one subsequent attempt yields length 1; a Calculate step only
appends at the end (existing entries are never edited, reordered or
individually deleted) and clear is the only reset. -/
theorem history_ledger_spec :
    (∀ evs : List SessionEvent, (∀ e ∈ evs, e.isCalc = true) →
      evs.foldl step [] = evs.map entryOf ∧
      (evs.foldl step []).length = evs.length) ∧
    (∀ (h : List HistoryEntry) (e : SessionEvent), e.isCalc = true →
      step h e = h ++ [entryOf e]) ∧
    (∀ h : List HistoryEntry, step h .clear = []) ∧
    (∀ (h : List HistoryEntry) (e : SessionEvent), e.isCalc = true →
      (step (step h .clear) e).length = 1) := by
  have happend : ∀ (h : List HistoryEntry) (e : SessionEvent), e.isCalc = true →
      step h e = h ++ [entryOf e] := by
    intro h e he
    cases e with
    | press t g o x y b am => simp [step, add_history, entryOf]
    | clear => simp [SessionEvent.isCalc] at he
  refine ⟨fun evs hall => ?_, happend, fun h => rfl, fun h e he => ?_⟩
  · have := foldl_step_calc evs [] hall
    simp only [List.nil_append] at this
    exact ⟨this, by rw [this, List.length_map]⟩
  · rw [show step h SessionEvent.clear = [] from rfl, happend [] e he]
    simp

/-- Witness for C5: two concrete Calculate attempts from an empty ledger
produce a history of length 2. -/
theorem history_ledger_spec_witness :
    (([SessionEvent.press "t1" "Basic" "Add" (some (.int 1)) (some (.int 2)) none "Degrees",
       SessionEvent.press "t2" "Basic" "Divide" (some (.float 1)) (some (.float 0)) none "Degrees"]
      ).foldl step []).length = 2 := by
  have h := (history_ledger_spec.1
      [SessionEvent.press "t1" "Basic" "Add" (some (.int 1)) (some (.int 2)) none "Degrees",
       SessionEvent.press "t2" "Basic" "Divide" (some (.float 1)) (some (.float 0)) none "Degrees"]
      (by intro e he; simp only [List.mem_cons, List.not_mem_nil, or_false] at he
          rcases he with rfl | rfl <;> rfl)).2
  simpa using h

/-- Claim C6: the Trigonometry operations compute trig(x * pi/180) under
Degrees mode and trig(x) under Radians mode; the InverseTrig operations
return the radian inverse-trig value multiplied by 180/pi under Degrees and
unconverted under Radians (arcsin and arccos on their domain [-1, 1]); the
conversion pair to_radians/from_radians is pure and is the identity under
Radians. -/
theorem trig_angle_mode_spec (x : ℝ) :
    (calculate "Trigonometry" "sin" (some (.float x)) none none "Degrees"
        = ⟨some (.float (Real.sin (x * (Real.pi / 180)))), none⟩) ∧
    (calculate "Trigonometry" "cos" (some (.float x)) none none "Degrees"
        = ⟨some (.float (Real.cos (x * (Real.pi / 180)))), none⟩) ∧
    (calculate "Trigonometry" "tan" (some (.float x)) none none "Degrees"
        = ⟨some (.float (Real.tan (x * (Real.pi / 180)))), none⟩) ∧
    (calculate "Trigonometry" "sin" (some (.float x)) none none "Radians"
        = ⟨some (.float (Real.sin x)), none⟩) ∧
    (calculate "Trigonometry" "cos" (some (.float x)) none none "Radians"
        = ⟨some (.float (Real.cos x)), none⟩) ∧
    (calculate "Trigonometry" "tan" (some (.float x)) none none "Radians"
        = ⟨some (.float (Real.tan x)), none⟩) ∧
    (-1 ≤ x → x ≤ 1 →
      (calculate "Inverse Trig" "arcsin" (some (.float x)) none none "Degrees"
          = ⟨some (.float (Real.arcsin x * (180 / Real.pi))), none⟩) ∧
      (calculate "Inverse Trig" "arccos" (some (.float x)) none none "Degrees"
          = ⟨some (.float (Real.arccos x * (180 / Real.pi))), none⟩) ∧
      (calculate "Inverse Trig" "arcsin" (some (.float x)) none none "Radians"
          = ⟨some (.float (Real.arcsin x)), none⟩) ∧
      (calculate "Inverse Trig" "arccos" (some (.float x)) none none "Radians"
          = ⟨some (.float (Real.arccos x)), none⟩)) ∧
    (calculate "Inverse Trig" "arctan" (some (.float x)) none none "Degrees"
        = ⟨some (.float (Real.arctan x * (180 / Real.pi))), none⟩) ∧
    (calculate "Inverse Trig" "arctan" (some (.float x)) none none "Radians"
        = ⟨some (.float (Real.arctan x)), none⟩) ∧
    to_radians x "Radians" = x ∧ from_radians x "Radians" = x := by
  refine ⟨?_, ?_, ?_, ?_, ?_, ?_, fun h1 h2 => ⟨?_, ?_, ?_, ?_⟩, ?_, ?_, ?_, ?_⟩ <;>
    simp [calculate, compute, to_radians, from_radians, PyNum.toReal, *]

/-- Witness for C6 at x = 1/2 (the arcsin, Degrees conjunct). -/
theorem trig_angle_mode_spec_witness :
    calculate "Inverse Trig" "arcsin" (some (.float (1 / 2))) none none "Degrees"
      = ⟨some (.float (Real.arcsin (1 / 2) * (180 / Real.pi))), none⟩ :=
  ((trig_angle_mode_spec (1 / 2)).2.2.2.2.2.2.1 (by norm_num) (by norm_num)).1

/-- Counterexample to claim C7 as stated: 2.0 is an integer-valued float
result (for instance Square Root of 4.0, or 1.0 + 1.0), yet it is rendered
fixed-point as "2.000000" — with a decimal point — rather than as an exact
integer, because the code tests the runtime type `isinstance(x, int)`, not
integer-valuedness. -/
theorem format_number_claim_counterexample :
    format_number (some (.float 2)) 6 = "2.000000" ∧
    '.' ∈ ("2.000000" : String).data ∧ (2 : ℝ) = ((2 : ℤ) : ℝ) := by
  refine ⟨?_, by decide, by norm_num⟩
  show formatFixed 2 6 = "2.000000"
  have hval : (2 : ℝ) * 10 ^ 6 = ((2000000 : ℤ) : ℝ) := by norm_num
  have hround : roundHalfEven ((2 : ℝ) * 10 ^ 6) = 2000000 := by
    unfold roundHalfEven
    rw [hval, Int.floor_intCast]
    rw [if_pos (by norm_num)]
  unfold formatFixed
  rw [hround, if_neg (by norm_num : ¬(2 : ℝ) < 0)]
  decide

/-- Claim C7 (amended): format_number renders int-typed results (notably
Factorial results, which are Python ints) via str with no decimal point;
float-typed results — including integer-valued ones — render fixed-point,
for precision p > 0 with exactly p digits after the single decimal point
and for p = 0 with no decimal point at all; a non-numeric input (None)
falls back to the generic string conversion instead of raising. -/
theorem format_number_spec (p : ℕ) (hp : p ≤ 12) :
    (∀ n : ℤ, format_number (some (.int n)) p = toString n ∧
      ∀ c ∈ (toString n).data, c ≠ '.') ∧
    (p ≠ 0 → ∀ r : ℝ, ∃ pre post : List Char,
      (format_number (some (.float r)) p).data = pre ++ '.' :: post ∧
      post.length = p ∧ (∀ c ∈ pre, c ≠ '.') ∧ (∀ c ∈ post, c ≠ '.')) ∧
    (p = 0 → ∀ r : ℝ, ∀ c ∈ (format_number (some (.float r)) p).data, c ≠ '.') ∧
    format_number none p = "None" := by
  have hdash : ("-" : String).data = ['-'] := rfl
  have hemp : ("" : String).data = [] := rfl
  refine ⟨fun n => ⟨rfl, intStr_ne_dot n⟩, fun hp0 r => ?_, fun hp0 r c hc => ?_, rfl⟩
  · obtain ⟨pre, post, hdata, hlen, hpre, hpost⟩ :=
      renderScaled_data (roundHalfEven (r * 10 ^ p)).natAbs p hp0
    show ∃ pre post, (formatFixed r p).data = pre ++ '.' :: post ∧ _
    unfold formatFixed
    by_cases hneg : r < 0
    · rw [if_pos hneg]
      refine ⟨'-' :: pre, post, ?_, hlen, ?_, hpost⟩
      · rw [string_data_append, hdash, hdata]
        simp
      · intro c hc
        rcases List.mem_cons.mp hc with rfl | h
        · decide
        · exact hpre c h
    · rw [if_neg hneg]
      refine ⟨pre, post, ?_, hlen, hpre, hpost⟩
      rw [string_data_append, hemp, List.nil_append, hdata]
  · subst hp0
    revert hc
    show c ∈ (formatFixed r 0).data → c ≠ '.'
    unfold formatFixed
    intro hc
    rw [string_data_append] at hc
    rcases List.mem_append.mp hc with h | h
    · by_cases hneg : r < 0
      · rw [if_pos hneg, hdash] at h
        rcases List.mem_singleton.mp h with rfl
        decide
      · rw [if_neg hneg, hemp] at h
        cases h
    · exact renderScaled_data_zero _ c h

/-- Witness for C7 at precision 6 (non-numeric fallback conjunct). -/
theorem format_number_spec_witness :
    format_number none 6 = "None" :=
  (format_number_spec 6 (by norm_num)).2.2.2

/-- Counterexample to claim C8 as stated: Power with x = -1, y = 0.5 does
not return Success(x^y): CPython math.pow raises
ValueError("math domain error") for a negative base with a non-integer
exponent, so the handler returns a Failure. -/
theorem power_claim_counterexample :
    calculate "Advanced" "Power (x^y)"
        (some (.float (-1))) (some (.float (1 / 2))) none "Degrees"
      = ⟨none, some "math domain error"⟩ := by
  have hny : ¬∃ n : ℤ, ((2 : ℝ)⁻¹) = (n : ℝ) := by
    rintro ⟨n, hn⟩
    have h2 : (1 : ℝ) = 2 * (n : ℝ) := by
      calc (1 : ℝ) = 2 * (2 : ℝ)⁻¹ := by norm_num
        _ = 2 * (n : ℝ) := by rw [hn]
    have h3 : (1 : ℤ) = 2 * n := by exact_mod_cast h2
    omega
  have hmp : math_pow (-1 : ℝ) ((2 : ℝ)⁻¹) = Except.error "math domain error" := by
    unfold math_pow
    rw [if_pos ⟨by norm_num, hny⟩]
  simp [calculate, compute, PyNum.toReal, hmp]

/-- Claim C8 (amended): Power has no explicit domain check, but math.pow
itself has one: for all finite real operands x, y the handler returns
Success(x^y) unless x < 0 with y not an integer, or x = 0 with y < 0, in
which two cases math.pow raises and the handler returns Failure with the
message "math domain error". -/
theorem power_spec (x y : ℝ) (am : String) :
    (¬(x < 0 ∧ ¬∃ n : ℤ, y = (n : ℝ)) → ¬(x = 0 ∧ y < 0) →
      calculate "Advanced" "Power (x^y)" (some (.float x)) (some (.float y)) none am
        = ⟨some (.float (Real.rpow x y)), none⟩) ∧
    (x < 0 → (∀ n : ℤ, y ≠ (n : ℝ)) →
      calculate "Advanced" "Power (x^y)" (some (.float x)) (some (.float y)) none am
        = ⟨none, some "math domain error"⟩) ∧
    (x = 0 → y < 0 →
      calculate "Advanced" "Power (x^y)" (some (.float x)) (some (.float y)) none am
        = ⟨none, some "math domain error"⟩) := by
  refine ⟨fun h1 h2 => ?_, fun hx hy => ?_, fun hx hy => ?_⟩
  · have hmp : math_pow x y = .ok (Real.rpow x y) := by
      unfold math_pow
      rw [if_neg h1, if_neg h2]
    simp [calculate, compute, PyNum.toReal, hmp]
  · have hmp : math_pow x y = .error "math domain error" := by
      unfold math_pow
      rw [if_pos ⟨hx, fun hex => hex.elim fun n hn => hy n hn⟩]
    simp [calculate, compute, PyNum.toReal, hmp]
  · have hmp : math_pow x y = .error "math domain error" := by
      unfold math_pow
      rw [if_neg fun hc => absurd hx (ne_of_lt hc.1), if_pos ⟨hx, hy⟩]
    simp [calculate, compute, PyNum.toReal, hmp]

/-- Witness for C8 at x = 2, y = 3. -/
theorem power_spec_witness :
    calculate "Advanced" "Power (x^y)" (some (.float 2)) (some (.float 3)) none "Degrees"
      = ⟨some (.float (Real.rpow 2 3)), none⟩ :=
  (power_spec 2 3 "Degrees").1 (by norm_num) (by norm_num)

/-- Claim C9: under Degrees mode, feeding the sin of a degree angle
x ∈ [-90, 90] (as the Trigonometry branch computes it) into arcsin returns
exactly x — the degree round-trip arcsin(sin_degrees(x)) = x, which is in
particular within any configured precision. -/
theorem arcsin_sin_degrees_roundtrip (x : ℝ) (h1 : -90 ≤ x) (h2 : x ≤ 90) :
    calculate "Inverse Trig" "arcsin"
        (some (.float (Real.sin (to_radians x "Degrees")))) none none "Degrees"
      = ⟨some (.float x), none⟩ := by
  have hrad : to_radians x "Degrees" = x * (Real.pi / 180) := by
    simp [to_radians]
  have hc : (0 : ℝ) ≤ Real.pi / 180 := by positivity
  have hlow : -(Real.pi / 2) ≤ x * (Real.pi / 180) := by
    have h := mul_le_mul_of_nonneg_right h1 hc
    rw [show (-90 : ℝ) * (Real.pi / 180) = -(Real.pi / 2) from by ring] at h
    exact h
  have hhigh : x * (Real.pi / 180) ≤ Real.pi / 2 := by
    have h := mul_le_mul_of_nonneg_right h2 hc
    rw [show (90 : ℝ) * (Real.pi / 180) = Real.pi / 2 from by ring] at h
    exact h
  have hs1 : -1 ≤ Real.sin (x * (Real.pi / 180)) := Real.neg_one_le_sin _
  have hs2 : Real.sin (x * (Real.pi / 180)) ≤ 1 := Real.sin_le_one _
  have harc : Real.arcsin (Real.sin (x * (Real.pi / 180))) = x * (Real.pi / 180) :=
    Real.arcsin_sin hlow hhigh
  have hback : x * (Real.pi / 180) * (180 / Real.pi) = x := by
    have hpi : Real.pi ≠ 0 := Real.pi_ne_zero
    field_simp
  rw [hrad]
  simp [calculate, compute, from_radians, PyNum.toReal, hs1, hs2, harc, hback]

/-- Witness for C9 at x = 0. -/
theorem arcsin_sin_degrees_roundtrip_witness :
    calculate "Inverse Trig" "arcsin"
        (some (.float (Real.sin (to_radians 0 "Degrees")))) none none "Degrees"
      = ⟨some (.float 0), none⟩ :=
  arcsin_sin_degrees_roundtrip 0 (by norm_num) (by norm_num)

/-- Claim C10: the copy-last-result handler never raises; it exposes a
stored value exactly when the history is non-empty and its last entry has
error = None and result ≠ None; on an empty history, or when the last
entry is a Failure or has a None result, it only shows an informational
message and exposes nothing. -/
theorem copy_last_result_spec :
    (copy_last_result [] = .info "No history yet.") ∧
    (∀ (h : List HistoryEntry) (v : PyNum),
      copy_last_result h = .copied v ↔
        ∃ last, h.getLast? = some last ∧ last.error = none ∧ last.result = some v) ∧
    (∀ (h : List HistoryEntry) (last : HistoryEntry), h.getLast? = some last →
      last.error ≠ none ∨ last.result = none →
      copy_last_result h = .info "Last entry has no result to copy.") := by
  refine ⟨rfl, fun h v => ⟨fun hc => ?_, fun hex => ?_⟩, fun h last hl hcase => ?_⟩
  · unfold copy_last_result at hc
    cases hl : h.getLast? with
    | none => rw [hl] at hc; simp at hc
    | some last =>
      rw [hl] at hc
      obtain ⟨t, o, i, res, err⟩ := last
      cases err with
      | some e => cases res <;> simp at hc
      | none =>
        cases res with
        | none => simp at hc
        | some w =>
          simp at hc
          exact ⟨⟨t, o, i, some w, none⟩, rfl, rfl, by rw [hc]⟩
  · obtain ⟨last, hl, he, hr⟩ := hex
    obtain ⟨t, o, i, res, err⟩ := last
    cases err with
    | some e => exact absurd he (by simp)
    | none =>
      cases res with
      | none => exact absurd hr (by simp)
      | some w =>
        have hw : w = v := by simpa using hr
        subst hw
        unfold copy_last_result
        rw [hl]
  · obtain ⟨t, o, i, res, err⟩ := last
    unfold copy_last_result
    rw [hl]
    rcases hcase with he | hr
    · cases err with
      | none => exact absurd rfl he
      | some e => cases res <;> rfl
    · have hres : res = none := by simpa using hr
      subst hres
      cases err <;> rfl

/-- Witness for C10: a one-entry history whose entry holds result 120 and no
error exposes exactly that result. -/
theorem copy_last_result_spec_witness :
    copy_last_result
        [⟨"t", "Misc → Factorial", ⟨some (.int 5), none, none, "Degrees"⟩,
          some (.int 120), none⟩]
      = .copied (.int 120) :=
  (copy_last_result_spec.2.1 _ (.int 120)).mpr ⟨_, rfl, rfl, rfl⟩
